import Mathlib

/-!
Verification of the visibility-doctor core: the gap analyzer
(`src/visibility_doctor/analyzer.py`) and the action-plan generator
(`src/visibility_doctor/actions.py`), shallowly embedded in Lean.

Modelling conventions:
* Python numbers (floats and ints used in arithmetic and comparisons) are
  modelled as `ℚ`.
* Display-only string fields (`description`, `your_value`, `market_value`)
  interpolate numbers via f-strings in the source; the numeric formatting is
  not modelled — those fields carry the static text only.  No analysed
  property depends on them.  Apostrophes inside string literals are written
  with the escape `\x27`.
* Fallible code (the `median_price` computation, which can index past the end
  of a list) is modelled with `Option`; `none` corresponds to a raised
  `IndexError`.
* `ESSENTIAL_AMENITIES` is imported by the source from the external
  `listing_grader` package (configuration, not part of this repository); it is
  modelled as an explicit parameter `ess` of the analyzer.
-/

namespace VisibilityDoctor

/-- The `Gap` dataclass from `analyzer.py`. -/
structure Gap where
  category : String
  severity : String      -- critical, important, minor, advantage
  title : String
  description : String
  your_value : String
  market_value : String
  impact_percent : ℚ
  fix_effort : String    -- easy, medium, hard
  fix_cost : String      -- free, low, medium, high
deriving DecidableEq, Repr

/-- The `GapAnalysis` dataclass from `analyzer.py`. -/
structure GapAnalysis where
  listing_id : String
  competitors_count : Nat
  critical_gaps : List Gap := []
  important_gaps : List Gap := []
  minor_gaps : List Gap := []
  advantages : List Gap := []
  estimated_visibility_loss : ℚ := 0
deriving DecidableEq, Repr

/-- Target record shape (`listing_grader.ListingData`, an external
collaborator); fields as consumed by the analyzer (spec §3/§6). -/
structure ListingData where
  listing_id : String
  rating : ℚ
  reviews_count : ℚ
  price_per_night : ℚ
  images : List String
  amenities : List String
  is_superhost : Bool
  is_guest_favorite : Bool
  instant_bookable : Bool
  response_rate : ℚ
  response_time_hours : ℚ
deriving DecidableEq, Repr

/-- Peer record shape (`airbnb_scraper.ListingBasic`, an external
collaborator); fields as consumed by the analyzer (spec §4.1). -/
structure ListingBasic where
  price_per_night : ℚ
  rating : ℚ
  reviews_count : ℚ
  images : List String
  amenities : List String
  is_superhost : Bool
  is_guest_favorite : Bool
  instant_bookable : Bool
deriving DecidableEq, Repr

/-- External quality score (`listing_grader.GradeResultV2`); the analyzer
consumes only `response_score`. -/
structure GradeResultV2 where
  response_score : ℚ
deriving DecidableEq, Repr

/-- The market-statistics mapping built by `_calculate_market_stats`.  The
source builds a `dict` whose keys are always all present when the competitor
list is non-empty, so it is modelled as a structure. -/
structure MarketStats where
  avg_photos : ℚ
  avg_rating : ℚ
  avg_reviews : ℚ
  avg_price : ℚ
  instant_book_pct : ℚ
  superhost_pct : ℚ
  guest_favorite_pct : ℚ
  max_photos : ℚ
  max_reviews : ℚ
  median_price : ℚ
deriving DecidableEq, Repr

/-- Python `str.lower` on one character, for the characters that occur in this
code base (ASCII letters plus the accented capital `É` of the gap titles). -/
def pyLowerChar (c : Char) : Char :=
  if 'A' ≤ c ∧ c ≤ 'Z' then Char.ofNat (c.toNat + 32)
  else if c = 'É' then 'é' else c

/-- Python `str.lower` on a string. -/
def pyLower (s : String) : String :=
  ⟨s.toList.map pyLowerChar⟩

/-- Python substring test `needle in hay` on character lists. -/
def hasSub : List Char → List Char → Bool
  | [], needle => needle.isEmpty
  | h :: t, needle => List.isPrefixOf needle (h :: t) || hasSub t needle

/-- Python `max(xs, default=0)`: maximum of a list, `0` when empty. -/
def pyMax (l : List ℚ) : ℚ :=
  match l with
  | [] => 0
  | h :: t => t.foldl max h

/-- Sum of `f` over a list, as `ℚ`. -/
def sumBy (l : List α) (f : α → ℚ) : ℚ := (l.map f).sum

/-- Embedding of `GapAnalyzer._calculate_market_stats`.  `none` models a raised exception:
`median_price` is computed as
`sorted([p for p in prices if p > 0])[n//2] if n > 0 else 0` where `n` is the
TOTAL competitor count, so the index `n//2` can run past the end of the list
of positive prices (an `IndexError`).  The `[]` case (where the source
returns an empty dict) is modelled as `none`; `analyze` never reaches it
because it short-circuits on an empty competitor list. -/
def calculateMarketStats (competitors : List ListingBasic) : Option MarketStats :=
  match competitors with
  | [] => none
  | _ :: _ =>
    let n : Nat := competitors.length
    let nQ : ℚ := n
    let rated := competitors.filter (fun c => decide (0 < c.rating))
    let priced := competitors.filter (fun c => decide (0 < c.price_per_night))
    let posPrices := priced.map (·.price_per_night)
    match (List.insertionSort (fun a b : ℚ => a ≤ b) posPrices).get? (n / 2) with
    | none => none
    | some med =>
      some {
        avg_photos := sumBy competitors (fun c => (c.images.length : ℚ)) / nQ
        avg_rating := sumBy rated (·.rating) / (max 1 rated.length : ℚ)
        avg_reviews := sumBy competitors (·.reviews_count) / nQ
        avg_price := sumBy priced (·.price_per_night) / (max 1 priced.length : ℚ)
        instant_book_pct := ((competitors.filter (·.instant_bookable)).length : ℚ) / nQ * 100
        superhost_pct := ((competitors.filter (·.is_superhost)).length : ℚ) / nQ * 100
        guest_favorite_pct := ((competitors.filter (·.is_guest_favorite)).length : ℚ) / nQ * 100
        max_photos := pyMax (competitors.map (fun c => (c.images.length : ℚ)))
        max_reviews := pyMax (competitors.map (·.reviews_count))
        median_price := med
      }

/-- Append a gap to the critical bucket (`result.critical_gaps.append(...)`). -/
def addCritical (r : GapAnalysis) (g : Gap) : GapAnalysis :=
  { r with critical_gaps := r.critical_gaps ++ [g] }

/-- Append a gap to the important bucket. -/
def addImportant (r : GapAnalysis) (g : Gap) : GapAnalysis :=
  { r with important_gaps := r.important_gaps ++ [g] }

/-- Append a gap to the minor bucket. -/
def addMinor (r : GapAnalysis) (g : Gap) : GapAnalysis :=
  { r with minor_gaps := r.minor_gaps ++ [g] }

/-- Append a gap to the advantages bucket. -/
def addAdvantage (r : GapAnalysis) (g : Gap) : GapAnalysis :=
  { r with advantages := r.advantages ++ [g] }

/-- Embedding of `GapAnalyzer._analyze_instant_book`. -/
def analyzeInstantBook (target : ListingData) (m : MarketStats) (r : GapAnalysis) : GapAnalysis :=
  if target.instant_bookable = false ∧ 70 ≤ m.instant_book_pct then
    addCritical r
      { category := "settings", severity := "critical",
        title := "Instant Book désactivé",
        description := "des concurrents ont Instant Book activé. C\x27est un facteur majeur de ranking Airbnb.",
        your_value := "Désactivé", market_value := "des concurrents",
        impact_percent := -15, fix_effort := "easy", fix_cost := "free" }
  else if target.instant_bookable = false ∧ 50 ≤ m.instant_book_pct then
    addImportant r
      { category := "settings", severity := "important",
        title := "Instant Book désactivé",
        description := "des concurrents ont Instant Book. Considère l\x27activer.",
        your_value := "Désactivé", market_value := "des concurrents",
        impact_percent := -10, fix_effort := "easy", fix_cost := "free" }
  else if target.instant_bookable then
    addAdvantage r
      { category := "settings", severity := "advantage",
        title := "Instant Book activé",
        description := "Instant Book améliore ton ranking et facilite les réservations.",
        your_value := "Activé", market_value := "des concurrents",
        impact_percent := 5, fix_effort := "none", fix_cost := "free" }
  else r

/-- Embedding of `GapAnalyzer._analyze_photos`. -/
def analyzePhotos (target : ListingData) (m : MarketStats) (r : GapAnalysis) : GapAnalysis :=
  let photo_count : ℚ := target.images.length
  let avg := m.avg_photos
  let diff := photo_count - avg
  if diff < -10 then
    addCritical r
      { category := "photos", severity := "critical",
        title := "Nombre de photos insuffisant",
        description := "photos vs la moyenne chez les concurrents. Les photos sont le facteur #1 de conversion.",
        your_value := "photos", market_value := "moy, max",
        impact_percent := -15, fix_effort := "medium", fix_cost := "low" }
  else if diff < -5 then
    addImportant r
      { category := "photos", severity := "important",
        title := "Photos en dessous de la moyenne",
        description := "Ajoute des photos pour atteindre la moyenne du marché.",
        your_value := "photos", market_value := "en moyenne",
        impact_percent := -8, fix_effort := "easy", fix_cost := "free" }
  else if 5 < diff then
    addAdvantage r
      { category := "photos", severity := "advantage",
        title := "Excellent nombre de photos",
        description := "Tu as plus de photos que la moyenne, c\x27est un avantage pour la conversion.",
        your_value := "photos", market_value := "en moyenne",
        impact_percent := 5, fix_effort := "none", fix_cost := "free" }
  else r

/-- Embedding of `GapAnalyzer._analyze_rating`.  (The `grade` parameter is present in the
source's signature but unused by the rule.) -/
def analyzeRating (target : ListingData) (_grade : GradeResultV2) (m : MarketStats)
    (r : GapAnalysis) : GapAnalysis :=
  let rating := target.rating
  let avg_rating := m.avg_rating
  let rating_diff := rating - avg_rating
  if rating < 4.5 then
    addCritical r
      { category := "reviews", severity := "critical",
        title := "Rating critique",
        description := "Un rating sous 4.5 réduit drastiquement ta visibilité dans les recherches Airbnb.",
        your_value := "rating", market_value := "moy",
        impact_percent := -25, fix_effort := "hard", fix_cost := "free" }
  else if rating < 4.8 ∧ rating_diff < -0.2 then
    addImportant r
      { category := "reviews", severity := "important",
        title := "Rating en dessous du marché",
        description := "Ton rating est en dessous de la moyenne. Vise 4.8+ pour Guest Favorites.",
        your_value := "rating", market_value := "moy",
        impact_percent := -12, fix_effort := "hard", fix_cost := "free" }
  else if 4.9 ≤ rating then
    addAdvantage r
      { category := "reviews", severity := "advantage",
        title := "Excellent rating",
        description := "Ton rating de 4.9+ te qualifie potentiellement pour Guest Favorites!",
        your_value := "rating", market_value := "moy",
        impact_percent := 10, fix_effort := "none", fix_cost := "free" }
  else if 0.1 < rating_diff then
    addAdvantage r
      { category := "reviews", severity := "advantage",
        title := "Rating supérieur au marché",
        description := "Ton rating est au-dessus de la moyenne locale.",
        your_value := "rating", market_value := "moy",
        impact_percent := 5, fix_effort := "none", fix_cost := "free" }
  else r

/-- Embedding of `GapAnalyzer._analyze_response`. -/
def analyzeResponse (target : ListingData) (grade : GradeResultV2) (_m : MarketStats)
    (r : GapAnalysis) : GapAnalysis :=
  if grade.response_score < 50 then
    addCritical r
      { category := "response", severity := "critical",
        title := "Temps de réponse trop long",
        description := "Un temps de réponse > 12h pénalise fortement ton ranking. Airbnb privilégie les hôtes réactifs.",
        your_value := "h", market_value := "< 1h recommandé",
        impact_percent := -15, fix_effort := "easy", fix_cost := "free" }
  else if grade.response_score < 70 then
    addImportant r
      { category := "response", severity := "important",
        title := "Temps de réponse à améliorer",
        description := "Vise un temps de réponse < 1h pour maximiser ton ranking.",
        your_value := "h", market_value := "< 1h recommandé",
        impact_percent := -8, fix_effort := "easy", fix_cost := "free" }
  else if 98 ≤ target.response_rate ∧ target.response_time_hours ≤ 1 then
    addAdvantage r
      { category := "response", severity := "advantage",
        title := "Excellent temps de réponse",
        description := "Ta réactivité est un atout majeur pour le ranking.",
        your_value := "h", market_value := "< 1h recommandé",
        impact_percent := 5, fix_effort := "none", fix_cost := "free" }
  else r

/-- Embedding of `GapAnalyzer._analyze_pricing`. -/
def analyzePricing (target : ListingData) (m : MarketStats) (r : GapAnalysis) : GapAnalysis :=
  let avg_price := m.avg_price
  if avg_price ≤ 0 ∨ target.price_per_night ≤ 0 then r
  else
    let price_diff_pct := (target.price_per_night - avg_price) / avg_price
    if 0.35 < price_diff_pct then
      addCritical r
        { category := "pricing", severity := "critical",
          title := "Prix très au-dessus du marché",
          description := "Ton prix est au-dessus de la moyenne. Cela peut drastiquement réduire tes réservations.",
          your_value := "/nuit", market_value := "/nuit (moy)",
          impact_percent := -20, fix_effort := "easy", fix_cost := "free" }
    else if 0.20 < price_diff_pct then
      addImportant r
        { category := "pricing", severity := "important",
          title := "Prix au-dessus du marché",
          description := "Ton prix est au-dessus. Assure-toi que ta qualité justifie ce premium.",
          your_value := "/nuit", market_value := "/nuit",
          impact_percent := -12, fix_effort := "easy", fix_cost := "free" }
    else if -0.10 ≤ price_diff_pct ∧ price_diff_pct ≤ 0.05 then
      addAdvantage r
        { category := "pricing", severity := "advantage",
          title := "Prix compétitif",
          description := "Ton prix est bien positionné par rapport au marché.",
          your_value := "/nuit", market_value := "/nuit",
          impact_percent := 5, fix_effort := "none", fix_cost := "free" }
    else if price_diff_pct < -0.25 then
      -- impact 0: "Not a visibility issue" in the source
      addMinor r
        { category := "pricing", severity := "minor",
          title := "Prix potentiellement trop bas",
          description := "Ton prix est en dessous du marché. Tu pourrais augmenter tes revenus.",
          your_value := "/nuit", market_value := "/nuit",
          impact_percent := 0, fix_effort := "easy", fix_cost := "free" }
    else r

/-- One step of building the Python amenity-frequency `dict`: bump the count
for key `k`, preserving first-insertion order. -/
def bumpKey : List (String × Nat) → String → List (String × Nat)
  | [], k => [(k, 1)]
  | (k', v) :: t, k => if k' = k then (k, v + 1) :: t else (k', v) :: bumpKey t k

/-- Amenity frequency across competitors (lower-cased), in Python `dict`
insertion order. -/
def amenityFreq (competitors : List ListingBasic) : List (String × Nat) :=
  competitors.foldl (fun m c => c.amenities.foldl (fun m a => bumpKey m (pyLower a)) m) []

/-- Embedding of `GapAnalyzer._analyze_amenities`.  `ess` is the external
`ESSENTIAL_AMENITIES` configuration.  The source's `missing_critical` holds
`(amenity.title(), pct)` pairs used only for counting and display; the
`.title()` re-casing is display-only and not modelled. -/
def analyzeAmenities (ess : List String) (target : ListingData)
    (competitors : List ListingBasic) (r : GapAnalysis) : GapAnalysis :=
  let n : ℚ := competitors.length
  let target_amenities := target.amenities.map pyLower
  let missing_critical := (amenityFreq competitors).filter fun p =>
    decide (70 ≤ (p.2 : ℚ) / n * 100) && !(target_amenities.contains p.1) &&
      ess.any (fun ea => hasSub p.1.toList ea.toList)
  if 3 ≤ missing_critical.length then
    addCritical r
      { category := "amenities", severity := "critical",
        title := "Équipements essentiels manquants",
        description := "Ces équipements sont présents chez 70%+ des concurrents",
        your_value := "équipements", market_value := "manquants critiques",
        impact_percent := -12, fix_effort := "medium", fix_cost := "medium" }
  else if 0 < missing_critical.length then
    addImportant r
      { category := "amenities", severity := "important",
        title := "Équipements courants manquants",
        description := "Considère ajouter",
        your_value := "équipements", market_value := "manquants",
        impact_percent := -6, fix_effort := "medium", fix_cost := "low" }
  else r

/-- Embedding of `GapAnalyzer._analyze_superhost`. -/
def analyzeSuperhost (target : ListingData) (m : MarketStats) (r : GapAnalysis) : GapAnalysis :=
  if target.is_superhost then
    addAdvantage r
      { category := "badges", severity := "advantage",
        title := "Statut Superhost",
        description := "Le badge Superhost booste ta visibilité et la confiance des voyageurs.",
        your_value := "Superhost", market_value := "des concurrents",
        impact_percent := 8, fix_effort := "none", fix_cost := "free" }
  else if 50 ≤ m.superhost_pct then
    addImportant r
      { category := "badges", severity := "important",
        title := "Pas de statut Superhost",
        description := "des concurrents sont Superhosts. Ce badge améliore significativement le ranking.",
        your_value := "Non Superhost", market_value := "des concurrents",
        impact_percent := -8, fix_effort := "hard", fix_cost := "free" }
  else r

/-- Embedding of `GapAnalyzer._analyze_guest_favorite`. -/
def analyzeGuestFavorite (target : ListingData) (m : MarketStats) (r : GapAnalysis) : GapAnalysis :=
  if target.is_guest_favorite then
    addAdvantage r
      { category := "badges", severity := "advantage",
        title := "Badge Guest Favorite",
        description := "Tu fais partie des annonces les mieux notées! C\x27est un boost majeur de visibilité.",
        your_value := "Guest Favorite", market_value := "des concurrents",
        impact_percent := 12, fix_effort := "none", fix_cost := "free" }
  else if 20 ≤ m.guest_favorite_pct ∧ 4.8 ≤ target.rating then
    addMinor r
      { category := "badges", severity := "minor",
        title := "Guest Favorite atteignable",
        description := "Avec ton rating de 4.8+, tu es proche du badge Guest Favorite. Continue tes efforts!",
        your_value := "rating", market_value := "4.9 + 5 avis + <1% annulations",
        impact_percent := -5, fix_effort := "medium", fix_cost := "free" }
  else r

/-- Embedding of `GapAnalyzer._analyze_reviews_count`. -/
def analyzeReviewsCount (target : ListingData) (m : MarketStats) (r : GapAnalysis) : GapAnalysis :=
  let avg_reviews := m.avg_reviews
  if target.reviews_count < 5 then
    addCritical r
      { category := "reviews", severity := "critical",
        title := "Trop peu d\x27avis",
        description := "Moins de 5 avis = pas éligible Guest Favorites et faible confiance des voyageurs.",
        your_value := "avis", market_value := "moy, max",
        impact_percent := -20, fix_effort := "hard", fix_cost := "free" }
  else if target.reviews_count < avg_reviews * 0.5 then
    addImportant r
      { category := "reviews", severity := "important",
        title := "Nombre d\x27avis en dessous du marché",
        description := "Plus d\x27avis = plus de confiance = meilleur ranking.",
        your_value := "avis", market_value := "en moyenne",
        impact_percent := -10, fix_effort := "hard", fix_cost := "free" }
  else if avg_reviews * 1.5 < target.reviews_count then
    addAdvantage r
      { category := "reviews", severity := "advantage",
        title := "Excellent nombre d\x27avis",
        description := "Ton nombre d\x27avis inspire confiance aux voyageurs.",
        your_value := "avis", market_value := "en moyenne",
        impact_percent := 5, fix_effort := "none", fix_cost := "free" }
  else r

/-- Total loss: `sum(abs(gap.impact_percent) for gap in critical+important+minor)`. -/
def totalLoss (r : GapAnalysis) : ℚ :=
  ((r.critical_gaps ++ r.important_gaps ++ r.minor_gaps).map (fun g => |g.impact_percent|)).sum

/-- Embedding of `GapAnalyzer.analyze`.  `none` models a raised exception (propagated from
`_calculate_market_stats`). -/
def analyze (ess : List String) (target : ListingData) (competitors : List ListingBasic)
    (grade : GradeResultV2) : Option GapAnalysis :=
  let base : GapAnalysis :=
    { listing_id := target.listing_id, competitors_count := competitors.length }
  if competitors.isEmpty then some base
  else
    match calculateMarketStats competitors with
    | none => none
    | some market =>
      let r := analyzeInstantBook target market base
      let r := analyzePhotos target market r
      let r := analyzeRating target grade market r
      let r := analyzeResponse target grade market r
      let r := analyzePricing target market r
      let r := analyzeAmenities ess target competitors r
      let r := analyzeSuperhost target market r
      let r := analyzeGuestFavorite target market r
      let r := analyzeReviewsCount target market r
      some { r with estimated_visibility_loss := totalLoss r }

/-- The `Action` dataclass from `actions.py`. -/
structure Action where
  id : String
  title : String
  description : String
  category : String
  priority : String
  time_minutes : ℚ
  cost_eur : ℚ
  impact_percent : ℚ
  steps : List String
  gap_title : String
  roi_score : ℚ := 0
deriving DecidableEq, Repr

/-- The ROI value computed by `Action.calculate_roi`:
`effort = time_minutes/60 + cost_eur/100`, floored to `0.1` when `≤ 0`;
`roi = abs(impact_percent) / effort`. -/
def calcRoi (a : Action) : ℚ :=
  let effort := a.time_minutes / 60 + a.cost_eur / 100
  let effort := if effort ≤ 0 then (0.1 : ℚ) else effort
  |a.impact_percent| / effort

/-- Embedding of `Action.calculate_roi`: the source mutates `self.roi_score`; modelled as returning the
updated action. -/
def applyRoi (a : Action) : Action := { a with roi_score := calcRoi a }

/-- Embedding of `Action.is_quick_win`: `time_minutes <= 30 and cost_eur == 0`. -/
def Action.is_quick_win (a : Action) : Bool :=
  decide (a.time_minutes ≤ 30) && decide (a.cost_eur = 0)

/-- The `ActionPlan` dataclass from `actions.py`. -/
structure ActionPlan where
  listing_id : String
  actions : List Action := []
  quick_wins : List Action := []
  total_time_hours : ℚ := 0
  total_cost_eur : ℚ := 0
  potential_gain_percent : ℚ := 0
deriving DecidableEq, Repr

/-- One remediation template of `ActionPlanGenerator.ACTION_TEMPLATES` (all
templates, including the generic fallback, define every field, so `category`
is not optional). -/
structure Template where
  title : String
  category : String
  time_minutes : ℚ
  cost_eur : ℚ
  steps : List String
deriving DecidableEq, Repr

/-- The table `ActionPlanGenerator.ACTION_TEMPLATES`, as the ordered association list
the Python `dict` iterates over (insertion order). -/
def ACTION_TEMPLATES : List (String × Template) := [
  ("instant book",
   { title := "Activer Instant Book", category := "settings",
     time_minutes := 5, cost_eur := 0,
     steps := ["Aller dans Annonce > Paramètres de réservation",
               "Activer \x27Réservation instantanée\x27",
               "Choisir les conditions (vérification ID, etc.)",
               "Sauvegarder les modifications"] }),
  ("photos",
   { title := "Ajouter des photos de qualité", category := "content",
     time_minutes := 180, cost_eur := 0,
     steps := ["Prendre des photos en journée (lumière naturelle)",
               "Ranger et nettoyer chaque pièce avant",
               "Photographier chaque espace (chambre, salon, cuisine, salle de bain, extérieur)",
               "Prendre des photos des détails (déco, équipements, vue)",
               "Éditer les photos (luminosité, cadrage)",
               "Uploader dans l\x27ordre logique (extérieur → pièces principales → détails)"] }),
  ("temps de réponse",
   { title := "Améliorer le temps de réponse", category := "response",
     time_minutes := 15, cost_eur := 0,
     steps := ["Activer les notifications push sur l\x27app Airbnb",
               "Créer 3-5 réponses rapides préenregistrées",
               "Configurer des alertes email/SMS",
               "Bloquer 10 min matin et soir pour répondre"] }),
  ("rating",
   { title := "Améliorer le rating", category := "reviews",
     time_minutes := 120, cost_eur := 50,
     steps := ["Analyser les 10 derniers commentaires négatifs",
               "Identifier les problèmes récurrents",
               "Améliorer la propreté (checklist détaillée)",
               "Ajouter des petites attentions (café, snacks, guide local)",
               "Communication proactive avant/pendant/après séjour",
               "Demander un feedback privé avant le checkout"] }),
  ("avis",
   { title := "Obtenir plus d\x27avis", category := "reviews",
     time_minutes := 30, cost_eur := 0,
     steps := ["Envoyer un message personnalisé après le checkout",
               "Rappeler gentiment l\x27importance des avis",
               "Laisser un avis pour le voyageur (déclenche souvent un avis en retour)",
               "Offrir une réduction pour le prochain séjour",
               "Proposer un prix attractif pour les premiers guests"] }),
  ("prix",
   { title := "Ajuster le prix", category := "pricing",
     time_minutes := 20, cost_eur := 0,
     steps := ["Analyser les prix des 10 concurrents les plus proches",
               "Activer le prix dynamique (Smart Pricing) ou utiliser PriceLabs",
               "Mettre des réductions semaine (-10%) et mois (-20%)",
               "Créer une promotion pour les 3 prochains mois",
               "Ajuster selon la saison et les événements locaux"] }),
  ("équipements",
   { title := "Ajouter des équipements essentiels", category := "amenities",
     time_minutes := 60, cost_eur := 150,
     steps := ["Lister les équipements manquants vs concurrents",
               "Prioriser: Wifi rapide, climatisation, cuisine équipée",
               "Acheter les équipements manquants",
               "Installer et tester",
               "Mettre à jour l\x27annonce avec les nouveaux équipements",
               "Prendre des photos des nouveaux équipements"] }),
  ("superhost",
   { title := "Atteindre le statut Superhost", category := "badges",
     time_minutes := 0, cost_eur := 0,
     steps := ["Maintenir un rating de 4.8+ (vérifier chaque avis)",
               "Répondre à 90%+ des messages dans les 24h",
               "Compléter au moins 10 séjours/an",
               "Ne jamais annuler (0% taux d\x27annulation)",
               "Vérifier ta progression dans le dashboard Airbnb"] }),
  ("guest favorite",
   { title := "Viser le badge Guest Favorite", category := "badges",
     time_minutes := 0, cost_eur := 0,
     steps := ["Atteindre un rating de 4.9+ (priorité absolue)",
               "Avoir au moins 5 avis",
               "Maintenir un taux d\x27annulation < 1%",
               "Exceller dans les 6 sous-catégories (propreté, précision, etc.)",
               "Être dans le top 10% de ta zone"] })]

/-- First-match template lookup: `for key, tmpl in ACTION_TEMPLATES.items():
if key in gap_title_lower: ...`. -/
def findTemplate : List (String × Template) → String → Option Template
  | [], _ => none
  | (k, t) :: rest, titleLower =>
    if hasSub titleLower.toList k.toList then some t else findTemplate rest titleLower

/-- The generic fallback template synthesized when no keyword matches. -/
def fallbackTemplate (gap : Gap) : Template :=
  { title := "Corriger: " ++ gap.title, category := gap.category,
    time_minutes := 60, cost_eur := 0,
    steps := ["Analyser le problème en détail",
              "Rechercher les solutions possibles",
              "Implémenter la solution choisie",
              "Vérifier le résultat",
              "Mettre à jour l\x27annonce si nécessaire"] }

/-- Zero-padding of `f"action_{index+1:02d}"` for the indices that occur. -/
def pad2 (n : Nat) : String :=
  if n < 10 then "0" ++ toString n else toString n

/-- Embedding of `ActionPlanGenerator._create_action`.  The source returns `Optional` but
every path returns an `Action` (and the caller's `if action:` test is always
true, dataclasses being truthy), so it is modelled as total. -/
def createAction (gap : Gap) (priority : String) (index : Nat) : Action :=
  let t := (findTemplate ACTION_TEMPLATES (pyLower gap.title)).getD (fallbackTemplate gap)
  { id := "action_" ++ pad2 (index + 1),
    title := t.title,
    description := gap.description,
    category := t.category,
    priority := priority,
    time_minutes := t.time_minutes,
    cost_eur := t.cost_eur,
    impact_percent := |gap.impact_percent|,
    steps := t.steps,
    gap_title := gap.title }

/-- The `all_gaps` list of `ActionPlanGenerator.generate`: critical findings
tagged `"critical"`, important tagged `"high"`, minor tagged `"medium"`;
advantages are never included. -/
def allGaps (ga : GapAnalysis) : List (Gap × String) :=
  ga.critical_gaps.map (fun g => (g, "critical")) ++
  ga.important_gaps.map (fun g => (g, "high")) ++
  ga.minor_gaps.map (fun g => (g, "medium"))

/-- The `for i, (gap, priority) in enumerate(all_gaps)` loop: one action per
gap, with `calculate_roi` applied. -/
def mkActions : Nat → List (Gap × String) → List Action
  | _, [] => []
  | i, (g, p) :: rest => applyRoi (createAction g p i) :: mkActions (i + 1) rest

/-- The action list of `generate` before the ROI sort. -/
def preActions (ga : GapAnalysis) : List Action :=
  mkActions 0 (allGaps ga)

/-- The ordering used by `plan.actions.sort(key=lambda a: a.roi_score,
reverse=True)`: `a` may precede `b` iff `a.roi_score ≥ b.roi_score`. -/
def roiGe (a b : Action) : Prop := b.roi_score ≤ a.roi_score

instance : DecidableRel roiGe :=
  fun a b => (inferInstance : Decidable (b.roi_score ≤ a.roi_score))

instance : IsTotal Action roiGe := ⟨fun a b => le_total b.roi_score a.roi_score⟩

instance : IsTrans Action roiGe := ⟨fun _ _ _ h1 h2 => le_trans h2 h1⟩

/-- Embedding of `ActionPlanGenerator.generate`.  Python's `list.sort` is a stable sort;
it is modelled by `List.insertionSort`, which is stable for the same
ordering. -/
def generate (ga : GapAnalysis) : ActionPlan :=
  let acts := List.insertionSort roiGe (preActions ga)
  { listing_id := ga.listing_id,
    actions := acts,
    quick_wins := acts.filter (fun a => a.is_quick_win),
    total_time_hours := sumBy acts (·.time_minutes) / 60,
    total_cost_eur := sumBy acts (·.cost_eur),
    potential_gain_percent := sumBy acts (·.impact_percent) }

/-- Invariant of the classifier's buckets: every gap carries the severity tag
of its bucket; critical and important gaps have strictly negative impact;
minor gaps have non-positive impact and are zero-impact only for the
low-price pricing finding; advantages have non-negative impact. -/
def InvRes (r : GapAnalysis) : Prop :=
  (∀ g ∈ r.critical_gaps, g.severity = "critical" ∧ g.impact_percent < 0) ∧
  (∀ g ∈ r.important_gaps, g.severity = "important" ∧ g.impact_percent < 0) ∧
  (∀ g ∈ r.minor_gaps, g.severity = "minor" ∧ g.impact_percent ≤ 0 ∧
      (g.impact_percent = 0 → g.title = "Prix potentiellement trop bas")) ∧
  (∀ g ∈ r.advantages, g.severity = "advantage" ∧ 0 ≤ g.impact_percent)

/-- A concrete target listing used to instantiate universally quantified
theorems on explicit inputs. -/
def tgtW : ListingData :=
  { listing_id := "L1", rating := 4.7, reviews_count := 10, price_per_night := 100,
    images := [], amenities := [], is_superhost := false, is_guest_favorite := false,
    instant_bookable := true, response_rate := 90, response_time_hours := 2 }

/-- A concrete external grade used for instantiation. -/
def gradeW : GradeResultV2 := { response_score := 75 }

/-- A concrete peer whose nightly price is not positive. -/
def peerZeroPrice : ListingBasic :=
  { price_per_night := 0, rating := 4.8, reviews_count := 10, images := ["i1"],
    amenities := [], is_superhost := false, is_guest_favorite := false,
    instant_bookable := true }

/-- The analysis result for an empty peer collection on `tgtW`. -/
def emptyResW : GapAnalysis := { listing_id := "L1", competitors_count := 0 }

/-- A concrete finding sitting in the important bucket. -/
def gapImp : Gap :=
  { category := "badges", severity := "important", title := "Pas de statut Superhost",
    description := "d", your_value := "", market_value := "",
    impact_percent := -8, fix_effort := "hard", fix_cost := "free" }

/-- A gap analysis whose only finding is the important one `gapImp`. -/
def gaC2 : GapAnalysis :=
  { listing_id := "L1", competitors_count := 3, important_gaps := [gapImp] }

/-- A concrete finding sitting in the critical bucket. -/
def gapCrit : Gap :=
  { category := "reviews", severity := "critical", title := "Rating critique",
    description := "d", your_value := "", market_value := "",
    impact_percent := -25, fix_effort := "hard", fix_cost := "free" }

/-- A gap analysis whose only finding is the critical one `gapCrit`. -/
def gaC4 : GapAnalysis :=
  { listing_id := "L2", competitors_count := 5, critical_gaps := [gapCrit] }

/-- The single action generated from `gaC4`. -/
def actC4 : Action := applyRoi (createAction gapCrit "critical" 0)

/-- A concrete advantage finding. -/
def gapAdv : Gap :=
  { category := "reviews", severity := "advantage", title := "Excellent rating",
    description := "d", your_value := "", market_value := "",
    impact_percent := 10, fix_effort := "none", fix_cost := "free" }

/-- A gap analysis whose only finding is the advantage `gapAdv`. -/
def gaAdv : GapAnalysis :=
  { listing_id := "L3", competitors_count := 4, advantages := [gapAdv] }

/-- Mapping a constant function yields a replicate. -/
theorem map_const_replicate (l : List α) (c : β) :
    l.map (fun _ => c) = List.replicate l.length c := by
  induction l with
  | nil => rfl
  | cons h t ih => simp [ih, List.replicate_succ]

/-- Each produced action keeps the priority string of its source pair. -/
theorem map_priority_mkActions (i : Nat) (l : List (Gap × String)) :
    (mkActions i l).map (fun a => a.priority) = l.map (fun p => p.2) := by
  induction l generalizing i with
  | nil => rfl
  | cons p t ih =>
    obtain ⟨g, pr⟩ := p
    simp [mkActions, applyRoi, createAction, ih]

/-- One action is produced per gap pair. -/
theorem length_mkActions (i : Nat) (l : List (Gap × String)) :
    (mkActions i l).length = l.length := by
  induction l generalizing i with
  | nil => rfl
  | cons p t ih => obtain ⟨g, pr⟩ := p; simp [mkActions, ih]

/-- Every action produced by the generation loop has its `roi_score` equal to
the ROI of its own fields. -/
theorem roi_of_mem_mkActions (i : Nat) (l : List (Gap × String)) (a : Action)
    (h : a ∈ mkActions i l) : a.roi_score = calcRoi a := by
  induction l generalizing i with
  | nil => simp [mkActions] at h
  | cons p t ih =>
    obtain ⟨g, pr⟩ := p
    rw [mkActions] at h
    rcases List.mem_cons.mp h with h1 | h2
    · subst h1; rfl
    · exact ih (i + 1) h2

/-- Filtering on an exact ROI value commutes with an ordered insert for the
descending-ROI order: the inserted element lands in front of its ties. -/
theorem filter_orderedInsert_roiEq (c : ℚ) (x : Action) (m : List Action) :
    (List.orderedInsert roiGe x m).filter (fun a => decide (a.roi_score = c)) =
      if x.roi_score = c then x :: m.filter (fun a => decide (a.roi_score = c))
      else m.filter (fun a => decide (a.roi_score = c)) := by
  induction m with
  | nil => by_cases hx : x.roi_score = c <;> simp [List.orderedInsert, hx]
  | cons b t ih =>
    by_cases hb : roiGe x b
    · by_cases hx : x.roi_score = c <;>
        simp [List.orderedInsert, hb, List.filter_cons, hx]
    · have hlt : x.roi_score < b.roi_score := lt_of_not_le hb
      by_cases hx : x.roi_score = c
      · have hbc : ¬ b.roi_score = c := by rw [← hx]; exact (ne_of_gt hlt)
        simp [List.orderedInsert, hb, List.filter_cons, hx, hbc, ih]
      · simp [List.orderedInsert, hb, List.filter_cons, hx, ih]

/-- Stability of the descending-ROI insertion sort: the subsequence of
actions at any fixed ROI value is unchanged by the sort. -/
theorem filter_insertionSort_roiEq (c : ℚ) (l : List Action) :
    (List.insertionSort roiGe l).filter (fun a => decide (a.roi_score = c)) =
      l.filter (fun a => decide (a.roi_score = c)) := by
  induction l with
  | nil => rfl
  | cons b t ih =>
    rw [List.insertionSort, filter_orderedInsert_roiEq]
    by_cases hb : b.roi_score = c <;> simp [hb, ih, List.filter_cons]

/-- Appending a strictly negative critical-severity gap preserves the bucket
invariant. -/
theorem invRes_addCritical {r : GapAnalysis} {g : Gap} (h : InvRes r)
    (hs : g.severity = "critical") (hi : g.impact_percent < 0) :
    InvRes (addCritical r g) := by
  obtain ⟨h1, h2, h3, h4⟩ := h
  refine ⟨?_, h2, h3, h4⟩
  intro x hx
  rcases List.mem_append.mp hx with hx | hx
  · exact h1 x hx
  · rcases List.mem_singleton.mp hx with rfl; exact ⟨hs, hi⟩

/-- Appending a strictly negative important-severity gap preserves the bucket
invariant. -/
theorem invRes_addImportant {r : GapAnalysis} {g : Gap} (h : InvRes r)
    (hs : g.severity = "important") (hi : g.impact_percent < 0) :
    InvRes (addImportant r g) := by
  obtain ⟨h1, h2, h3, h4⟩ := h
  refine ⟨h1, ?_, h3, h4⟩
  intro x hx
  rcases List.mem_append.mp hx with hx | hx
  · exact h2 x hx
  · rcases List.mem_singleton.mp hx with rfl; exact ⟨hs, hi⟩

/-- Appending a non-positive minor-severity gap (zero-impact only for the
low-price title) preserves the bucket invariant. -/
theorem invRes_addMinor {r : GapAnalysis} {g : Gap} (h : InvRes r)
    (hs : g.severity = "minor") (hi : g.impact_percent ≤ 0)
    (hz : g.impact_percent = 0 → g.title = "Prix potentiellement trop bas") :
    InvRes (addMinor r g) := by
  obtain ⟨h1, h2, h3, h4⟩ := h
  refine ⟨h1, h2, ?_, h4⟩
  intro x hx
  rcases List.mem_append.mp hx with hx | hx
  · exact h3 x hx
  · rcases List.mem_singleton.mp hx with rfl; exact ⟨hs, hi, hz⟩

/-- Appending a non-negative advantage-severity gap preserves the bucket
invariant. -/
theorem invRes_addAdvantage {r : GapAnalysis} {g : Gap} (h : InvRes r)
    (hs : g.severity = "advantage") (hi : 0 ≤ g.impact_percent) :
    InvRes (addAdvantage r g) := by
  obtain ⟨h1, h2, h3, h4⟩ := h
  refine ⟨h1, h2, h3, ?_⟩
  intro x hx
  rcases List.mem_append.mp hx with hx | hx
  · exact h4 x hx
  · rcases List.mem_singleton.mp hx with rfl; exact ⟨hs, hi⟩

/-- The instant-book rule preserves the bucket invariant. -/
theorem invRes_analyzeInstantBook (t : ListingData) (m : MarketStats)
    {r : GapAnalysis} (h : InvRes r) : InvRes (analyzeInstantBook t m r) := by
  unfold analyzeInstantBook
  split_ifs with h1 h2 h3
  · exact invRes_addCritical h rfl (by norm_num)
  · exact invRes_addImportant h rfl (by norm_num)
  · exact invRes_addAdvantage h rfl (by norm_num)
  · exact h

/-- The photo-count rule preserves the bucket invariant. -/
theorem invRes_analyzePhotos (t : ListingData) (m : MarketStats)
    {r : GapAnalysis} (h : InvRes r) : InvRes (analyzePhotos t m r) := by
  unfold analyzePhotos
  dsimp only
  split_ifs with h1 h2 h3
  · exact invRes_addCritical h rfl (by norm_num)
  · exact invRes_addImportant h rfl (by norm_num)
  · exact invRes_addAdvantage h rfl (by norm_num)
  · exact h

/-- The rating rule preserves the bucket invariant. -/
theorem invRes_analyzeRating (t : ListingData) (gr : GradeResultV2) (m : MarketStats)
    {r : GapAnalysis} (h : InvRes r) : InvRes (analyzeRating t gr m r) := by
  unfold analyzeRating
  dsimp only
  split_ifs with h1 h2 h3 h4
  · exact invRes_addCritical h rfl (by norm_num)
  · exact invRes_addImportant h rfl (by norm_num)
  · exact invRes_addAdvantage h rfl (by norm_num)
  · exact invRes_addAdvantage h rfl (by norm_num)
  · exact h

/-- The response rule preserves the bucket invariant. -/
theorem invRes_analyzeResponse (t : ListingData) (gr : GradeResultV2) (m : MarketStats)
    {r : GapAnalysis} (h : InvRes r) : InvRes (analyzeResponse t gr m r) := by
  unfold analyzeResponse
  split_ifs with h1 h2 h3
  · exact invRes_addCritical h rfl (by norm_num)
  · exact invRes_addImportant h rfl (by norm_num)
  · exact invRes_addAdvantage h rfl (by norm_num)
  · exact h

/-- The pricing rule preserves the bucket invariant; its minor finding is the
zero-impact low-price one. -/
theorem invRes_analyzePricing (t : ListingData) (m : MarketStats)
    {r : GapAnalysis} (h : InvRes r) : InvRes (analyzePricing t m r) := by
  unfold analyzePricing
  dsimp only
  split_ifs with h1 h2 h3 h4 h5
  · exact h
  · exact invRes_addCritical h rfl (by norm_num)
  · exact invRes_addImportant h rfl (by norm_num)
  · exact invRes_addAdvantage h rfl (by norm_num)
  · exact invRes_addMinor h rfl le_rfl (fun _ => rfl)
  · exact h

/-- The amenities rule preserves the bucket invariant. -/
theorem invRes_analyzeAmenities (ess : List String) (t : ListingData)
    (comps : List ListingBasic) {r : GapAnalysis} (h : InvRes r) :
    InvRes (analyzeAmenities ess t comps r) := by
  unfold analyzeAmenities
  dsimp only
  split_ifs with h1 h2
  · exact invRes_addCritical h rfl (by norm_num)
  · exact invRes_addImportant h rfl (by norm_num)
  · exact h

/-- The superhost rule preserves the bucket invariant. -/
theorem invRes_analyzeSuperhost (t : ListingData) (m : MarketStats)
    {r : GapAnalysis} (h : InvRes r) : InvRes (analyzeSuperhost t m r) := by
  unfold analyzeSuperhost
  split_ifs with h1 h2
  · exact invRes_addAdvantage h rfl (by norm_num)
  · exact invRes_addImportant h rfl (by norm_num)
  · exact h

/-- The guest-favorite rule preserves the bucket invariant. -/
theorem invRes_analyzeGuestFavorite (t : ListingData) (m : MarketStats)
    {r : GapAnalysis} (h : InvRes r) : InvRes (analyzeGuestFavorite t m r) := by
  unfold analyzeGuestFavorite
  split_ifs with h1 h2
  · exact invRes_addAdvantage h rfl (by norm_num)
  · exact invRes_addMinor h rfl (by norm_num) (fun hz => absurd hz (by norm_num))
  · exact h

/-- The review-count rule preserves the bucket invariant. -/
theorem invRes_analyzeReviewsCount (t : ListingData) (m : MarketStats)
    {r : GapAnalysis} (h : InvRes r) : InvRes (analyzeReviewsCount t m r) := by
  unfold analyzeReviewsCount
  dsimp only
  split_ifs with h1 h2 h3
  · exact invRes_addCritical h rfl (by norm_num)
  · exact invRes_addImportant h rfl (by norm_num)
  · exact invRes_addAdvantage h rfl (by norm_num)
  · exact h

/-- An empty-bucket analysis satisfies the invariant. -/
theorem invRes_base (id : String) (n : Nat) :
    InvRes { listing_id := id, competitors_count := n } := by
  refine ⟨?_, ?_, ?_, ?_⟩ <;> intro g hg <;> simp at hg

/-- Every successfully produced analysis satisfies the bucket invariant. -/
theorem invRes_analyze {ess : List String} {t : ListingData}
    {comps : List ListingBasic} {grade : GradeResultV2} {res : GapAnalysis}
    (h : analyze ess t comps grade = some res) : InvRes res := by
  unfold analyze at h
  split at h
  · injection h with h; subst h; exact invRes_base _ _
  · split at h
    · exact absurd h (by simp)
    · injection h with h; subst h
      exact invRes_analyzeReviewsCount t _
        (invRes_analyzeGuestFavorite t _
          (invRes_analyzeSuperhost t _
            (invRes_analyzeAmenities ess t comps
              (invRes_analyzePricing t _
                (invRes_analyzeResponse t grade _
                  (invRes_analyzeRating t grade _
                    (invRes_analyzePhotos t _
                      (invRes_analyzeInstantBook t _ (invRes_base _ _)))))))))

/-- C3: for every target, grade and essential-amenity configuration, an empty
peer collection yields a `GapAnalysis` with all four buckets empty and an
estimated visibility loss of 0.  The result is `some _` even though
`calculateMarketStats [] = none`: the short-circuit fires before the
aggregator, so the aggregator is never invoked on empty input. -/
theorem analyze_empty_peers (ess : List String) (target : ListingData)
    (grade : GradeResultV2) :
    analyze ess target [] grade =
      some { listing_id := target.listing_id, competitors_count := 0,
             critical_gaps := [], important_gaps := [], minor_gaps := [],
             advantages := [], estimated_visibility_loss := 0 } := rfl

/-- C1 is violated by the code: on a non-empty peer collection in which no
peer has a positive nightly price, `analyze` raises (modelled as `none`)
instead of merely disabling the pricing rule.  The `median_price` entry of
`_calculate_market_stats` indexes the sorted list of positive prices — empty
here — at position `n // 2`, an `IndexError`. -/
theorem analyze_raises_on_no_positive_price :
    analyze [] tgtW [peerZeroPrice] gradeW = none := rfl

/-- C7: in every analysis the classifier returns, the estimated visibility
loss is the sum of the absolute impacts over the critical, important and
minor buckets; advantages contribute nothing. -/
theorem loss_is_sum_of_deficits {ess : List String} {t : ListingData}
    {comps : List ListingBasic} {grade : GradeResultV2} {res : GapAnalysis}
    (h : analyze ess t comps grade = some res) :
    res.estimated_visibility_loss =
      ((res.critical_gaps ++ res.important_gaps ++ res.minor_gaps).map
        (fun g => |g.impact_percent|)).sum := by
  unfold analyze at h
  split at h
  · injection h with h; subst h; rfl
  · split at h
    · exact absurd h (by simp)
    · injection h with h; subst h; rfl

/-- Witness for C7 at a concrete input (empty peer collection). -/
theorem loss_is_sum_of_deficits_witness :
    emptyResW.estimated_visibility_loss =
      ((emptyResW.critical_gaps ++ emptyResW.important_gaps ++ emptyResW.minor_gaps).map
        (fun g => |g.impact_percent|)).sum :=
  @loss_is_sum_of_deficits [] tgtW [] gradeW emptyResW rfl

/-- C8: in every analysis the classifier returns, advantage-severity findings
have non-negative impact, critical/important/minor-severity findings have
non-positive impact, and the only zero-impact non-advantage finding is the
low-price minor one. -/
theorem severity_determines_impact_sign {ess : List String} {t : ListingData}
    {comps : List ListingBasic} {grade : GradeResultV2} {res : GapAnalysis}
    (h : analyze ess t comps grade = some res) :
    ∀ g ∈ res.critical_gaps ++ res.important_gaps ++ res.minor_gaps ++ res.advantages,
      (g.severity = "advantage" → 0 ≤ g.impact_percent) ∧
      ((g.severity = "critical" ∨ g.severity = "important" ∨ g.severity = "minor") →
        g.impact_percent ≤ 0 ∧
        (g.impact_percent = 0 → g.title = "Prix potentiellement trop bas")) := by
  obtain ⟨h1, h2, h3, h4⟩ := invRes_analyze h
  intro g hg
  simp only [List.mem_append] at hg
  rcases hg with ((hg | hg) | hg) | hg
  · obtain ⟨hs, hi⟩ := h1 g hg
    refine ⟨fun hadv => ?_, fun _ => ⟨le_of_lt hi, fun h0 => absurd h0 (ne_of_lt hi)⟩⟩
    rw [hs] at hadv; exact absurd hadv (by decide)
  · obtain ⟨hs, hi⟩ := h2 g hg
    refine ⟨fun hadv => ?_, fun _ => ⟨le_of_lt hi, fun h0 => absurd h0 (ne_of_lt hi)⟩⟩
    rw [hs] at hadv; exact absurd hadv (by decide)
  · obtain ⟨hs, hi, hz⟩ := h3 g hg
    refine ⟨fun hadv => ?_, fun _ => ⟨hi, hz⟩⟩
    rw [hs] at hadv; exact absurd hadv (by decide)
  · obtain ⟨hs, hi⟩ := h4 g hg
    refine ⟨fun _ => hi, fun hcim => ?_⟩
    rw [hs] at hcim
    rcases hcim with hc | hc | hc <;> exact absurd hc (by decide)

/-- Witness for C8 at a concrete input (empty peer collection). -/
theorem severity_determines_impact_sign_witness :
    (∀ g ∈ emptyResW.critical_gaps ++ emptyResW.important_gaps ++
        emptyResW.minor_gaps ++ emptyResW.advantages,
      g.severity = "advantage" → 0 ≤ g.impact_percent) ∧
    (∀ g ∈ emptyResW.critical_gaps ++ emptyResW.important_gaps ++
        emptyResW.minor_gaps ++ emptyResW.advantages,
      (g.severity = "critical" ∨ g.severity = "important" ∨ g.severity = "minor") →
        g.impact_percent ≤ 0 ∧
        (g.impact_percent = 0 → g.title = "Prix potentiellement trop bas")) :=
  ⟨fun g hg => (@severity_determines_impact_sign [] tgtW [] gradeW emptyResW rfl g hg).1,
   fun g hg => (@severity_determines_impact_sign [] tgtW [] gradeW emptyResW rfl g hg).2⟩

/-- C10: in every analysis the classifier returns, every gap stored in a
bucket carries the severity tag naming that bucket. -/
theorem buckets_consistent_with_severity {ess : List String} {t : ListingData}
    {comps : List ListingBasic} {grade : GradeResultV2} {res : GapAnalysis}
    (h : analyze ess t comps grade = some res) :
    (∀ g ∈ res.critical_gaps, g.severity = "critical") ∧
    (∀ g ∈ res.important_gaps, g.severity = "important") ∧
    (∀ g ∈ res.minor_gaps, g.severity = "minor") ∧
    (∀ g ∈ res.advantages, g.severity = "advantage") := by
  obtain ⟨h1, h2, h3, h4⟩ := invRes_analyze h
  exact ⟨fun g hg => (h1 g hg).1, fun g hg => (h2 g hg).1,
         fun g hg => (h3 g hg).1, fun g hg => (h4 g hg).1⟩

/-- Witness for C10 at a concrete input (empty peer collection). -/
theorem buckets_consistent_with_severity_witness :
    (∀ g ∈ emptyResW.critical_gaps, g.severity = "critical") ∧
    (∀ g ∈ emptyResW.important_gaps, g.severity = "important") ∧
    (∀ g ∈ emptyResW.minor_gaps, g.severity = "minor") ∧
    (∀ g ∈ emptyResW.advantages, g.severity = "advantage") :=
  @buckets_consistent_with_severity [] tgtW [] gradeW emptyResW rfl

/-- Counterexample to C2 as stated: `gaC2` holds a single finding, in the
important bucket, yet the action generated from it has priority `"high"`,
not `"important"`. -/
theorem important_finding_priority_is_high :
    gaC2.important_gaps.length = 1 ∧
    ((generate gaC2).actions.map (fun a => a.priority)) = ["high"] := ⟨rfl, rfl⟩

/-- C2 as amended: the generator maps buckets to priorities by the fixed
table critical ↦ "critical", important ↦ "high", minor ↦ "medium" (and the
sorted action list is a permutation of the produced ones). -/
theorem priorities_follow_bucket_table (ga : GapAnalysis) :
    (preActions ga).map (fun a => a.priority) =
      List.replicate ga.critical_gaps.length "critical" ++
      List.replicate ga.important_gaps.length "high" ++
      List.replicate ga.minor_gaps.length "medium" ∧
    (generate ga).actions.Perm (preActions ga) := by
  constructor
  · rw [preActions, map_priority_mkActions, allGaps]
    simp only [List.map_append, List.map_map]
    rw [Function.comp_def, Function.comp_def, Function.comp_def]
    simp only [map_const_replicate]
  · simpa [generate] using List.perm_insertionSort roiGe (preActions ga)

/-- C9: the plan contains exactly one action per finding of the critical,
important and minor buckets (the generic fallback template guarantees that a
title with no keyword match is not dropped), and findings in the advantage
bucket generate none: the actions are a permutation of the list produced from
the three deficit buckets alone, so their count is the sum of those three
bucket sizes, whatever the advantage bucket holds. -/
theorem one_action_per_deficit_finding (ga : GapAnalysis) :
    (generate ga).actions.Perm (preActions ga) ∧
    (generate ga).actions.length =
      ga.critical_gaps.length + ga.important_gaps.length + ga.minor_gaps.length := by
  have hperm : (generate ga).actions.Perm (preActions ga) := by
    simpa [generate] using List.perm_insertionSort roiGe (preActions ga)
  refine ⟨hperm, ?_⟩
  rw [hperm.length_eq, preActions, length_mkActions, allGaps]
  simp [List.length_append, Nat.add_assoc]

/-- C5: the returned action sequence is sorted by `roi_score` in
non-increasing order, and the sort is stable: for every ROI value `c`, the
subsequence of actions whose `roi_score` is `c` equals the corresponding
subsequence of the pre-sort list (which lists critical-, then important-,
then minor-bucket actions in rule order). -/
theorem actions_sorted_by_roi_stably (ga : GapAnalysis) :
    List.Sorted roiGe (generate ga).actions ∧
    ∀ c : ℚ, ((generate ga).actions.filter (fun a => decide (a.roi_score = c))) =
      (preActions ga).filter (fun a => decide (a.roi_score = c)) := by
  constructor
  · simpa [generate] using List.sorted_insertionSort roiGe (preActions ga)
  · intro c
    simpa [generate] using filter_insertionSort_roiEq c (preActions ga)

/-- C6: the quick-win list is exactly the in-order filter of the sorted
actions by `time_minutes ≤ 30` and `cost_eur == 0`: sound, complete, and
order-preserving (a sublist of the sorted actions, not re-sorted). -/
theorem quick_wins_exact (ga : GapAnalysis) :
    (generate ga).quick_wins = (generate ga).actions.filter (fun a => a.is_quick_win) ∧
    (generate ga).quick_wins.Sublist (generate ga).actions ∧
    ∀ a : Action, a ∈ (generate ga).quick_wins ↔
      a ∈ (generate ga).actions ∧ a.time_minutes ≤ 30 ∧ a.cost_eur = 0 := by
  refine ⟨rfl, List.filter_sublist _, fun a => ?_⟩
  show a ∈ (generate ga).actions.filter (fun a => a.is_quick_win) ↔ _
  simp [List.mem_filter, Action.is_quick_win, and_assoc]

/-- C4: every action in the plan has `roi_score = |impact_percent| / effort`
with `effort = time_minutes/60 + cost_eur/100`, floored to `0.1` when that
expression is ≤ 0; the divisor is always positive, so the ROI is defined for
zero-minute, zero-cost actions. -/
theorem roi_score_formula (ga : GapAnalysis) :
    ∀ a ∈ (generate ga).actions,
      (0 < (if a.time_minutes / 60 + a.cost_eur / 100 ≤ 0 then (0.1 : ℚ)
            else a.time_minutes / 60 + a.cost_eur / 100)) ∧
      a.roi_score = |a.impact_percent| /
        (if a.time_minutes / 60 + a.cost_eur / 100 ≤ 0 then (0.1 : ℚ)
         else a.time_minutes / 60 + a.cost_eur / 100) := by
  intro a ha
  have ha' : a ∈ preActions ga :=
    (List.perm_insertionSort roiGe (preActions ga)).mem_iff.mp
      (by simpa [generate] using ha)
  have hroi : a.roi_score = calcRoi a := roi_of_mem_mkActions 0 _ a ha'
  constructor
  · split_ifs with he
    · norm_num
    · exact lt_of_not_le he
  · rw [hroi]; rfl

/-- Witness for C4 at a concrete input: the single action generated from
`gaC4` (a critical rating finding). -/
theorem roi_score_formula_witness :
    actC4 ∈ (generate gaC4).actions ∧
    actC4.roi_score = |actC4.impact_percent| /
      (if actC4.time_minutes / 60 + actC4.cost_eur / 100 ≤ 0 then (0.1 : ℚ)
       else actC4.time_minutes / 60 + actC4.cost_eur / 100) := by
  have hmem : actC4 ∈ (generate gaC4).actions := List.mem_singleton.mpr rfl
  exact ⟨hmem, (roi_score_formula gaC4 actC4 hmem).2⟩

/-- The crash behind C1 is universal: for every non-empty peer collection in
which no peer has a positive nightly price, `analyze` raises (returns
`none`), because `median_price` indexes an empty sorted list. -/
theorem analyze_raises_for_all_nonpositive_price_peers (ess : List String)
    (t : ListingData) (grade : GradeResultV2) (comps : List ListingBasic)
    (hne : comps ≠ []) (hp : ∀ c ∈ comps, c.price_per_night ≤ 0) :
    analyze ess t comps grade = none := by
  obtain ⟨c0, cs, rfl⟩ := List.exists_cons_of_ne_nil hne
  have hfil : (c0 :: cs).filter (fun c => decide (0 < c.price_per_night)) = [] := by
    rw [List.filter_eq_nil_iff]
    intro a ha
    simpa using not_lt.mpr (hp a ha)
  have hstats : calculateMarketStats (c0 :: cs) = none := by
    unfold calculateMarketStats
    dsimp only
    rw [hfil]
    simp [List.insertionSort]
  simp [analyze, hstats]

/-- Concrete illustration of the advantage exclusion (spec Scenario D): an
analysis holding only an advantage finding generates no action at all. -/
theorem generate_ignores_advantages_example :
    (generate gaAdv).actions = [] ∧ (generate gaAdv).quick_wins = [] := ⟨rfl, rfl⟩

end VisibilityDoctor
